import Mathlib

/-!
Verification of the cradcrawl bid-notice crawler (FastAPI app + G2B crawler
package) against its natural-language specification.

The definitions below are a shallow embedding of the Python source:

* `app.py` — `CrawlingState` (`get_status`, `save_results`), the
  `/api/start` and `/api/stop` handlers, and the result-accumulation /
  zero-result-keyword branches of `run_crawling`;
* `backend/crawler/g2b_search.py` — `extract_search_results_bs4` and its
  three extraction strategies (`_extract_items_from_table`,
  `_extract_items_from_cells`, `_extract_items_from_grid`), including the
  `datetime.strptime`-based status classification;
* `backend/crawler/g2b_parser.py` — the loop of `parse_detail_page` that
  merges the parsed Gemini response into the structured `detail_data`;
* `backend/crawler/g2b_crawler.py` — `navigate_to_bid_list` (attribute
  lookup on `CrawlerBase`) and the `max_items` limit of
  `extract_search_results`;
* `backend/crawler/g2b_navigation.py` — the bounded popup sweep
  `_close_popups`.

Python strings are Lean `String`s; Python dicts with a fixed key schema are
Lean structures with `Option` fields for keys that may be absent; code that
can raise returns `Option`/`Except` or is run under an explicit
caught/uncaught split mirroring the `try`/`except` blocks.
-/

/-! ## Python string helpers

These are written as structural recursions over `List Char` so that all of
them evaluate by kernel reduction on concrete inputs. -/

/-- Python `needle in hay` substring test on character lists. -/
def pyContainsChars (needle : List Char) : List Char → Bool
  | [] => needle.isEmpty
  | c :: rest => needle.isPrefixOf (c :: rest) || pyContainsChars needle rest

/-- Python `needle in hay` for `str` operands. -/
def pyContains (needle hay : String) : Bool :=
  pyContainsChars needle.data hay.data

/-- Python `s.lower()` (ASCII case fold; the Korean labels involved have no case). -/
def pyLower (s : String) : String :=
  ⟨s.data.map Char.toLower⟩

/-- Drop leading whitespace. -/
def dropWhileWS : List Char → List Char
  | [] => []
  | c :: rest => if c.isWhitespace then dropWhileWS rest else c :: rest

/-- Python `s.strip()`. -/
def pyStrip (s : String) : String :=
  ⟨dropWhileWS (dropWhileWS s.data.reverse).reverse⟩

/-- Python `s.isdigit()` (restricted to ASCII digits, which is what the data holds). -/
def pyIsDigit (s : String) : Bool :=
  s ≠ "" && s.data.all Char.isDigit

/-- Python `s.endswith(suffix)`. -/
def pyEndsWith (s suffix : String) : Bool :=
  suffix.data.reverse.isPrefixOf s.data.reverse

/-- Python `s.split(sep)` for a single-character separator. -/
def pySplitChars (sep : Char) : List Char → List (List Char)
  | [] => [[]]
  | c :: rest =>
    let r := pySplitChars sep rest
    if c = sep then [] :: r
    else
      match r with
      | [] => [[c]]
      | h :: t => (c :: h) :: t

/-- Python `s.split(sep)` for a single-character separator, on `str`. -/
def pySplit (s : String) (sep : Char) : List String :=
  (pySplitChars sep s.data).map (fun l => ⟨l⟩)

/-- Fuel-driven body of `str.replace` (the fuel is the input length; each step
consumes at least one character). -/
def pyReplaceFuel (pat repl : List Char) : Nat → List Char → List Char
  | _, [] => []
  | 0, cs => cs
  | fuel + 1, c :: rest =>
    if pat.isPrefixOf (c :: rest) then
      repl ++ pyReplaceFuel pat repl fuel (List.drop (pat.length - 1) rest)
    else c :: pyReplaceFuel pat repl fuel rest

/-- Python `s.replace(pat, repl)` (left-to-right, non-overlapping; the call
sites always pass a non-empty pattern). -/
def pyReplace (s pat repl : String) : String :=
  if pat = "" then s
  else ⟨pyReplaceFuel pat.data repl.data s.data.length s.data⟩

/-! ## `datetime.strptime` for the date formats used by `g2b_search.py`

The crawler parses end dates with `datetime.strptime` against the format
strings `"%Y-%m-%d"`, `"%Y/%m/%d"`, `"%Y.%m.%d"`, `"%Y년%m월%d일"`.  All four
are a 4-digit year, a separator, a 1–2 digit month, a separator, a 1–2 digit
day and an optional literal suffix; `strptime` requires the whole string to be
consumed and validates the day against the calendar (leap years included). -/

/-- A `%Y<sep1>%m<sep2>%d<suffix>` date format string. -/
structure DateFmt where
  sep1 : String
  sep2 : String
  suffix : String
  deriving Repr, DecidableEq

/-- `"%Y-%m-%d"`. -/
def fmtDash : DateFmt := ⟨"-", "-", ""⟩

/-- `"%Y/%m/%d"`. -/
def fmtSlash : DateFmt := ⟨"/", "/", ""⟩

/-- `"%Y.%m.%d"`. -/
def fmtDot : DateFmt := ⟨".", ".", ""⟩

/-- `"%Y년%m월%d일"`. -/
def fmtKorean : DateFmt := ⟨"년", "월", "일"⟩

/-- The `date_formats` list of `_extract_items_from_table`. -/
def tableDateFormats : List DateFmt := [fmtDash, fmtSlash, fmtDot, fmtKorean]

/-- A calendar date as `datetime.strptime` produces it (year-month-day). -/
structure PDate where
  y : Nat
  m : Nat
  d : Nat
  deriving Repr, DecidableEq

/-- `datetime` comparison restricted to dates: lexicographic on (y, m, d). -/
def PDate.lt (a b : PDate) : Bool :=
  if a.y < b.y then true
  else if b.y < a.y then false
  else if a.m < b.m then true
  else if b.m < a.m then false
  else decide (a.d < b.d)

/-- Numeric value of an ASCII digit. -/
def digitVal (c : Char) : Nat := c.toNat - 48

/-- `%Y`: exactly four digits. -/
def take4Digits : List Char → Option (Nat × List Char)
  | a :: b :: c :: d :: rest =>
    if a.isDigit && b.isDigit && c.isDigit && d.isDigit then
      some (digitVal a * 1000 + digitVal b * 100 + digitVal c * 10 + digitVal d, rest)
    else none
  | _ => none

/-- Consume a literal separator/suffix. -/
def dropLit : List Char → List Char → Option (List Char)
  | [], cs => some cs
  | _ :: _, [] => none
  | l :: ls, c :: cs => if l = c then dropLit ls cs else none

/-- `%m`: the regex `1[0-2]|0[1-9]|[1-9]` — a valid two-digit month if possible,
else a single non-zero digit. -/
def takeMonth : List Char → Option (Nat × List Char)
  | [] => none
  | [a] => if a.isDigit && 1 ≤ digitVal a then some (digitVal a, []) else none
  | a :: b :: rest =>
    if a.isDigit && b.isDigit then
      let v := digitVal a * 10 + digitVal b
      if 1 ≤ v && v ≤ 12 then some (v, rest)
      else if 1 ≤ digitVal a && digitVal a ≤ 9 then some (digitVal a, b :: rest)
      else none
    else if a.isDigit && 1 ≤ digitVal a then some (digitVal a, b :: rest)
    else none

/-- `%d`: the regex `3[01]|[12][0-9]|0[1-9]|[1-9]` — a valid two-digit day if
possible, else a single non-zero digit. -/
def takeDay : List Char → Option (Nat × List Char)
  | [] => none
  | [a] => if a.isDigit && 1 ≤ digitVal a then some (digitVal a, []) else none
  | a :: b :: rest =>
    if a.isDigit && b.isDigit then
      let v := digitVal a * 10 + digitVal b
      if 1 ≤ v && v ≤ 31 then some (v, rest)
      else if 1 ≤ digitVal a && digitVal a ≤ 9 then some (digitVal a, b :: rest)
      else none
    else if a.isDigit && 1 ≤ digitVal a then some (digitVal a, b :: rest)
    else none

/-- Gregorian leap year, as `datetime` validates it. -/
def isLeapYear (y : Nat) : Bool :=
  y % 4 = 0 && (y % 100 ≠ 0 || y % 400 = 0)

/-- Length of a month, as `datetime` validates it. -/
def daysInMonth (y m : Nat) : Nat :=
  if m = 2 then (if isLeapYear y then 29 else 28)
  else if m = 4 || m = 6 || m = 9 || m = 11 then 30
  else 31

/-- `datetime.strptime(s, fmt)` for a `%Y<sep1>%m<sep2>%d<suffix>` format,
returning `none` where Python raises `ValueError`. -/
def strptimeYMD (fmt : DateFmt) (s : String) : Option PDate := do
  let cs := s.data
  let (y, cs) ← take4Digits cs
  let cs ← dropLit fmt.sep1.data cs
  let (m, cs) ← takeMonth cs
  let cs ← dropLit fmt.sep2.data cs
  let (d, cs) ← takeDay cs
  let cs ← dropLit fmt.suffix.data cs
  if cs = [] && 1 ≤ y && d ≤ daysInMonth y m then some ⟨y, m, d⟩ else none

/-- The `for date_format in date_formats: try ... break except ValueError: continue`
loop: the first format that parses wins. -/
def firstParse : List DateFmt → String → Option PDate
  | [], _ => none
  | f :: rest, s =>
    match strptimeYMD f s with
    | some d => some d
    | none => firstParse rest s

/-- Status classification of `_extract_items_from_table`
(`g2b_search.py:491-509`): unknown unless `date_end` is non-empty and parses
in one of the four `date_formats`; then closed iff strictly before the current
date. -/
def statusFromFormats (formats : List DateFmt) (dateEnd curStr : String) : String :=
  if dateEnd = "" then "알수없음"
  else
    match strptimeYMD fmtDash curStr with
    | none => "알수없음"
    | some cur =>
      match firstParse formats dateEnd with
      | none => "알수없음"
      | some endD => if PDate.lt endD cur then "마감" else "공고중"

/-- Status classification of `_extract_items_from_cells` and
`_extract_items_from_grid` (`g2b_search.py:616-627`, `717-728`): a single
`strptime(date_end, "%Y-%m-%d")` inside one `try` block. -/
def statusSingleFormat (dateEnd curStr : String) : String :=
  if dateEnd = "" then "알수없음"
  else
    match strptimeYMD fmtDash curStr, strptimeYMD fmtDash dateEnd with
    | some cur, some endD => if PDate.lt endD cur then "마감" else "공고중"
    | _, _ => "알수없음"

/-! ## Document model for `g2b_search.py`

`extract_search_results_bs4` works on a `BeautifulSoup` parse of the results
page.  The embedding keeps exactly the structure the three strategies query:
tables of rows of header/data cells, the set of `td` elements reachable by a
global `find('td', id=...)`, and grid `div`s holding links with a parent row. -/

/-- An `<a>` element: its stripped-relevant text and `onclick` attribute
(`""` models an absent attribute — both are falsy where the code tests them). -/
structure ATag where
  text : String
  onclick : String := ""
  deriving Repr, DecidableEq

/-- A `<th>`/`<td>` cell: its tag kind, `.text`, contained `<a>` elements in
document order (`find('a')` is the head), its `id` attribute, and the links of
a contained `<nobr>` element when one exists. -/
structure Cell where
  isTh : Bool := false
  text : String
  links : List ATag := []
  idAttr : Option String := none
  nobrLinks : Option (List ATag) := none
  deriving Repr, DecidableEq

/-- A `<tr>` row. -/
structure TRow where
  cells : List Cell
  deriving Repr, DecidableEq

/-- A `<table>` element. -/
structure HTable where
  rows : List TRow
  deriving Repr, DecidableEq

/-- A link inside a grid `div`, with the `td` cells of its parent `<tr>`
(`none` when `find_parent('tr')` finds nothing). -/
structure GridLink where
  a : ATag
  parentRowCells : Option (List Cell) := none
  deriving Repr, DecidableEq

/-- A `<div>` the grid strategy may scan, with its `id` and contained links. -/
structure GridDiv where
  idAttr : String
  links : List GridLink
  deriving Repr, DecidableEq

/-- The parsed page: its tables, its grid divs, and any further `td` elements
outside the tables (so the global `find_all('td', ...)` is not restricted). -/
structure Soup where
  tables : List HTable
  gridDivs : List GridDiv
  extraTds : List Cell := []
  deriving Repr, DecidableEq

/-- All `td` elements of the document, as `soup.find_all('td', ...)` sees them. -/
def Soup.allTds (s : Soup) : List Cell :=
  (s.tables.foldr (fun t acc =>
    t.rows.foldr (fun r acc2 => r.cells.filter (fun c => !c.isTh) ++ acc2) acc) [])
  ++ s.extraTds

/-- One extracted list item — the dict built by the extraction strategies
(`Option` fields model keys that may be absent from the dict). -/
structure SearchItem where
  title : String
  bid_number : String
  department : String
  date_start : String
  date_end : String
  status : String
  row_index : Option String := none
  extraction_time : String
  onclick : Option String := none
  detail_function : Option String := none
  cell_id : Option String := none
  keyword : Option String := none
  deriving Repr, DecidableEq

/-! ## Strategy 1: `_extract_items_from_table` (`g2b_search.py:401-549`) -/

/-- The inferred column roles of the header row. -/
structure ColIdx where
  title : Option Nat := none
  bidNum : Option Nat := none
  dept : Option Nat := none
  dateStart : Option Nat := none
  dateEnd : Option Nat := none
  deriving Repr, DecidableEq

/-- The `for i, cell in enumerate(header_cells)` role scan — note that a later
matching header overwrites an earlier index for the same role. -/
def scanHeader (headerCells : List Cell) : ColIdx :=
  headerCells.enum.foldl (fun acc ic =>
    let cellText := pyLower (pyStrip ic.2.text)
    if pyContains "공고명" cellText || pyContains "입찰명" cellText ||
        pyContains "제목" cellText then
      { acc with title := some ic.1 }
    else if pyContains "공고번호" cellText || pyContains "입찰번호" cellText then
      { acc with bidNum := some ic.1 }
    else if pyContains "공고기관" cellText || pyContains "발주기관" cellText ||
        pyContains "기관" cellText then
      { acc with dept := some ic.1 }
    else if pyContains "게시일" cellText || pyContains "등록일" cellText then
      { acc with dateStart := some ic.1 }
    else if pyContains "마감일" cellText || pyContains "종료일" cellText then
      { acc with dateEnd := some ic.1 }
    else acc) {}

/-- `get_cell_text(index)`: the text of the cell at `index` (first `<a>` text
preferred), `""` when the index is `None` or out of range. -/
def getCellText (cells : List Cell) (idx : Option Nat) : String :=
  match idx with
  | none => ""
  | some i =>
    match cells.get? i with
    | none => ""
    | some c =>
      match c.links.head? with
      | some a => pyStrip a.text
      | none => pyStrip c.text

/-- Processing of one data row of a table: `None` models the `continue`
branches (too few columns, empty/numeric/short title, no bid number and no
department). -/
def processTableRow (cols : ColIdx) (titleIdx : Nat) (curStr now : String)
    (rowIdx : Nat) (row : TRow) : Option SearchItem :=
  let cells := row.cells.filter (fun c => !c.isTh)
  if cells.length ≤ titleIdx then none
  else
    let titleCell? := cells.get? titleIdx
    let title :=
      match titleCell? with
      | some c =>
        match c.links.head? with
        | some a => pyStrip a.text
        | none => pyStrip c.text
      | none => ""
    if title = "" || pyIsDigit title || title.length < 5 then none
    else
      let bid_number := getCellText cells cols.bidNum
      let department := getCellText cells cols.dept
      let date_start := getCellText cells cols.dateStart
      let date_end := getCellText cells cols.dateEnd
      let status := statusFromFormats tableDateFormats date_end curStr
      let onclick :=
        match titleCell? with
        | some c =>
          match c.links.head? with
          | some a => if a.onclick ≠ "" then some a.onclick else none
          | none => none
        | none => none
      let cellId :=
        match titleCell? with
        | some c =>
          match c.idAttr with
          | some cid => if pyContains "cell" cid then some cid else none
          | none => none
        | none => none
      let item : SearchItem :=
        { title := title, bid_number := bid_number, department := department,
          date_start := date_start, date_end := date_end, status := status,
          row_index := some (toString rowIdx), extraction_time := now,
          onclick := onclick, detail_function := onclick, cell_id := cellId }
      if title ≠ "" && (bid_number ≠ "" || department ≠ "") then some item else none

/-- The `for row_idx, row in enumerate(rows[1:], 1)` loop with the shared
`processed_count` cap of 1000. -/
def tableRowsLoop (cols : ColIdx) (titleIdx : Nat) (curStr now : String) :
    List (Nat × TRow) → List SearchItem → Nat → List SearchItem × Nat
  | [], items, count => (items, count)
  | ir :: rest, items, count =>
    if 1000 ≤ count then (items, count)
    else
      match processTableRow cols titleIdx curStr now ir.1 ir.2 with
      | some item => tableRowsLoop cols titleIdx curStr now rest (items ++ [item]) (count + 1)
      | none => tableRowsLoop cols titleIdx curStr now rest items count

/-- The outer `for table in tables` loop. -/
def tablesLoop (curStr now : String) :
    List HTable → List SearchItem → Nat → List SearchItem × Nat
  | [], items, count => (items, count)
  | t :: rest, items, count =>
    if t.rows.length < 2 then tablesLoop curStr now rest items count
    else
      match t.rows with
      | [] => tablesLoop curStr now rest items count
      | headerRow :: dataRows =>
        let headerCells := headerRow.cells
        let cols := scanHeader headerCells
        let titleIdx := cols.title.getD (headerCells.length / 2)
        let r := tableRowsLoop cols titleIdx curStr now (dataRows.enumFrom 1) items count
        tablesLoop curStr now rest r.1 r.2

/-- `_extract_items_from_table(soup, current_date)` (`now` threads
`datetime.now().strftime(...)` for the `extraction_time` field). -/
def extract_items_from_table (soup : Soup) (curStr now : String) : List SearchItem :=
  (tablesLoop curStr now soup.tables [] 0).1

/-! ## Strategy 2: `_extract_items_from_cells` (`g2b_search.py:551-654`) -/

/-- Processing of one title cell found by
`find_all('td', id=lambda x: x and 'gridView1_cell' in x and x.endswith('_6'))`.
`None` models the `continue` branches. -/
def processCellItem (soup : Soup) (curStr now : String) (cell : Cell) : Option SearchItem :=
  let cellId := (cell.idAttr.getD "")
  if cellId = "" then none
  else
    let idParts := pySplit cellId '_'
    if idParts.length < 4 then none
    else
      let rowIdx := (idParts.get? (idParts.length - 2)).getD ""
      let aTag? : Option ATag :=
        match cell.nobrLinks with
        | some ls => ls.head?
        | none => cell.links.head?
      let title :=
        match aTag? with
        | some a => pyStrip a.text
        | none => pyStrip cell.text
      let onclick :=
        match aTag? with
        | some a => a.onclick
        | none => ""
      let detailFunction := if onclick ≠ "" then onclick else ""
      if title = "" || pyIsDigit title || title.length < 5 then none
      else
        let findTdText := fun (tid : String) =>
          match soup.allTds.find? (fun c => c.idAttr = some tid) with
          | some c => pyStrip c.text
          | none => ""
        let bid_number := findTdText (pyReplace cellId "_6" "_2")
        let department := findTdText (pyReplace cellId "_6" "_4")
        let date_start := findTdText (pyReplace cellId "_6" "_7")
        let date_end := findTdText (pyReplace cellId "_6" "_8")
        let status := statusSingleFormat date_end curStr
        let item : SearchItem :=
          { title := title, bid_number := bid_number, department := department,
            date_start := date_start, date_end := date_end, status := status,
            onclick := some onclick, detail_function := some detailFunction,
            row_index := some rowIdx, extraction_time := now }
        if title ≠ "" && (bid_number ≠ "" || department ≠ "") then some item else none

/-- The `for cell in title_cells` loop with the `processed_count` cap. -/
def cellsLoop (soup : Soup) (curStr now : String) :
    List Cell → List SearchItem → Nat → List SearchItem × Nat
  | [], items, count => (items, count)
  | cell :: rest, items, count =>
    if 1000 ≤ count then (items, count)
    else
      match processCellItem soup curStr now cell with
      | some item => cellsLoop soup curStr now rest (items ++ [item]) (count + 1)
      | none => cellsLoop soup curStr now rest items count

/-- `_extract_items_from_cells(soup, current_date)`. -/
def extract_items_from_cells (soup : Soup) (curStr now : String) : List SearchItem :=
  let titleCells := soup.allTds.filter (fun c =>
    match c.idAttr with
    | some x => pyContains "gridView1_cell" x && pyEndsWith x "_6"
    | none => false)
  (cellsLoop soup curStr now titleCells [] 0).1

/-! ## Strategy 3: `_extract_items_from_grid` (`g2b_search.py:656-754`) -/

/-- The positional-inference loop over the sibling cells of the link's parent
row (`for i, cell in enumerate(cells)` with the four guarded assignments). -/
def gridSiblingScan (title : String) (cells : List Cell) :
    String × String × String × String :=
  cells.enum.foldl (fun (acc : String × String × String × String) ic =>
    let i := ic.1
    let cellText := pyStrip ic.2.text
    let skip :=
      match ic.2.links.head? with
      | some a => pyStrip a.text == title
      | none => false
    if skip then acc
    else
      let bn := acc.1
      let dp := acc.2.1
      let ds := acc.2.2.1
      let de := acc.2.2.2
      if bn = "" && i < 2 && cellText ≠ "" && cellText.data.any Char.isDigit then
        (cellText, dp, ds, de)
      else if dp = "" && i < 4 then (bn, cellText, ds, de)
      else if ds = "" && i < 6 then (bn, dp, cellText, de)
      else if de = "" && i < 7 then (bn, dp, ds, cellText)
      else acc) ("", "", "", "")

/-- Processing of one link inside a grid div; `None` models the `continue`
branches (bad title, no parent `<tr>`). -/
def processGridLink (curStr now : String) (gl : GridLink) : Option SearchItem :=
  let title := pyStrip gl.a.text
  if title = "" || pyIsDigit title || title.length < 5 then none
  else
    let onclick := gl.a.onclick
    match gl.parentRowCells with
    | none => none
    | some rowCells =>
      let cells := rowCells.filter (fun c => !c.isTh)
      let fields :=
        if 3 ≤ cells.length then gridSiblingScan title cells else ("", "", "", "")
      let bid_number := fields.1
      let department := fields.2.1
      let date_start := fields.2.2.1
      let date_end := fields.2.2.2
      let status := statusSingleFormat date_end curStr
      let item : SearchItem :=
        { title := title, bid_number := bid_number, department := department,
          date_start := date_start, date_end := date_end, status := status,
          onclick := some onclick, detail_function := some onclick,
          extraction_time := now }
      if title ≠ "" then some item else none

/-- The `for link in links` loop of one grid div with the shared cap. -/
def gridLinksLoop (curStr now : String) :
    List GridLink → List SearchItem → Nat → List SearchItem × Nat
  | [], items, count => (items, count)
  | gl :: rest, items, count =>
    if 1000 ≤ count then (items, count)
    else
      match processGridLink curStr now gl with
      | some item => gridLinksLoop curStr now rest (items ++ [item]) (count + 1)
      | none => gridLinksLoop curStr now rest items count

/-- The outer `for grid in grid_divs` loop. -/
def gridDivsLoop (curStr now : String) :
    List GridDiv → List SearchItem → Nat → List SearchItem × Nat
  | [], items, count => (items, count)
  | g :: rest, items, count =>
    let r := gridLinksLoop curStr now g.links items count
    gridDivsLoop curStr now rest r.1 r.2

/-- `_extract_items_from_grid(soup, current_date)`: scans divs whose `id`
contains `grid` or `list` (case-insensitive). -/
def extract_items_from_grid (soup : Soup) (curStr now : String) : List SearchItem :=
  let grids := soup.gridDivs.filter (fun g =>
    pyContains "grid" (pyLower g.idAttr) || pyContains "list" (pyLower g.idAttr))
  (gridDivsLoop curStr now grids [] 0).1

/-! ## The strategy chain: `extract_search_results_bs4` (`g2b_search.py:340-394`) -/

/-- The `item['keyword'] = self.keyword` annotation applied to every returned item. -/
def setKeyword (kw : String) (item : SearchItem) : SearchItem :=
  { item with keyword := some kw }

/-- `extract_search_results_bs4`: table strategy first; if it yields nothing,
the cell-id strategy; if that also yields nothing, the grid strategy; an empty
chain result returns `[]`, otherwise every item is annotated with the keyword. -/
def extract_search_results_bs4 (soup : Soup) (curStr now keyword : String) :
    List SearchItem :=
  let items := extract_items_from_table soup curStr now
  let items :=
    if items.isEmpty then
      let items2 := extract_items_from_cells soup curStr now
      if items2.isEmpty then extract_items_from_grid soup curStr now else items2
    else items
  if items.isEmpty then []
  else items.map (setKeyword keyword)

/-! ## `app.py`: crawl-job state, snapshot persistence, start/stop handlers -/

/-- The dict returned by `CrawlingState.get_status` (`app.py:269-278`). -/
structure StatusData where
  is_running : Bool
  processed_keywords : List String
  total_keywords : Nat
  total_items : Nat
  start_time : Option String
  end_time : Option String
  deriving Repr, DecidableEq

/-- The mutable fields of `CrawlingState` (`app.py:257-267`); `hasCrawler`
models `self.crawler` being non-`None`. -/
structure CrawlingState where
  is_running : Bool := false
  hasCrawler : Bool := false
  results : List SearchItem := []
  processed_keywords : List String := []
  total_keywords : Nat := 0
  start_time : Option String := none
  end_time : Option String := none
  deriving Repr, DecidableEq

/-- `CrawlingState.get_status`. -/
def CrawlingState.get_status (st : CrawlingState) : StatusData :=
  { is_running := st.is_running,
    processed_keywords := st.processed_keywords,
    total_keywords := st.total_keywords,
    total_items := st.results.length,
    start_time := st.start_time,
    end_time := st.end_time }

/-- The `save_data` dict written by `CrawlingState.save_results`
(`app.py:288-314`): timestamp, total item count, processed keywords, results. -/
structure CrawlSnapshot where
  timestamp : String
  total_items : Nat
  keywords : List String
  results : List SearchItem
  deriving Repr, DecidableEq

/-- `CrawlingState.save_results` (the persisted JSON payload; `now` threads
`datetime.now()`). -/
def CrawlingState.save_results (st : CrawlingState) (now : String) : CrawlSnapshot :=
  { timestamp := now,
    total_items := st.results.length,
    keywords := st.processed_keywords,
    results := st.results }

/-- Response of the `/api/stop` handler. -/
inductive StopResponse where
  | error (message : String)
  | success (saved : CrawlSnapshot) (data : StatusData)
  deriving Repr, DecidableEq

/-- `stop_crawling` (`app.py:539-574`): reject when idle; otherwise close the
crawler, mark the job stopped, persist a snapshot and report the new status. -/
def stop_crawling (st : CrawlingState) (now : String) : StopResponse × CrawlingState :=
  if !st.is_running then (.error "실행 중인 크롤링이 없습니다.", st)
  else
    let st := { st with hasCrawler := false }
    let st := { st with is_running := false, end_time := some now }
    let saved := st.save_results now
    (.success saved st.get_status, st)

/-- Response of the `/api/start` handler. -/
inductive StartResponse where
  | error (message : String)
  | success (message : String) (data : StatusData)
  deriving Repr, DecidableEq

/-- The body of a `/api/start` request. -/
structure StartRequest where
  keywords : List String
  headless : Bool := true
  startDate : Option String := none
  endDate : Option String := none
  maxItems : Int := 10000
  deriving Repr, DecidableEq

/-- The background task queued by a successful start. -/
structure BackgroundTask where
  keywords : List String
  headless : Bool
  start_date : Option String
  end_date : Option String
  max_items : Int
  deriving Repr, DecidableEq

/-- `start_crawling` (`app.py:494-537`): reject synchronously while a job is
running (before touching any state), reject empty keyword lists, otherwise
reset the job state and queue `run_crawling` as a background task. -/
def start_crawling (st : CrawlingState) (req : StartRequest) (now : String) :
    StartResponse × CrawlingState × Option BackgroundTask :=
  if st.is_running then (.error "이미 크롤링이 실행 중입니다.", st, none)
  else if req.keywords = [] then (.error "키워드를 하나 이상 입력해주세요.", st, none)
  else
    let st := { st with
      is_running := true, results := [], processed_keywords := [],
      total_keywords := req.keywords.length, start_time := some now,
      end_time := none }
    (.success "크롤링이 시작되었습니다." st.get_status, st,
      some { keywords := req.keywords, headless := req.headless,
             start_date := req.startDate, end_date := req.endDate,
             max_items := req.maxItems })

/-- The result-accumulation loop of `run_crawling` (`app.py:858-861`):
`for result in detailed_items: if result not in crawling_state.results:
crawling_state.results.append(result)` — membership is whole-dict equality. -/
def appendResults (results : List SearchItem) (newItems : List SearchItem) :
    List SearchItem :=
  newItems.foldl (fun acc result => if result ∈ acc then acc else acc ++ [result]) results

/-- The zero-result branch of the keyword loop of `run_crawling`
(`app.py:870-877`): record the keyword as processed (if not already recorded)
and broadcast a status event computed from the updated state. -/
def process_keyword_no_results (st : CrawlingState) (keyword : String) :
    CrawlingState × StatusData :=
  let pk :=
    if keyword ∈ st.processed_keywords then st.processed_keywords
    else st.processed_keywords ++ [keyword]
  let st := { st with processed_keywords := pk }
  (st, st.get_status)

/-! ## `g2b_parser.py`: merging the parsed AI response into `detail_data` -/

/-- The canonical fields of the `detail_data` dict of
`G2BParser.parse_detail_page` that the Gemini merge loop reads or writes
(`contract_period` and `delivery_location` are keys the loop may add). -/
structure DetailData where
  bid_number : String
  bid_title : String
  organization : Option String := none
  division : Option String := none
  contract_method : Option String := none
  bid_type : Option String := none
  estimated_price : Option String := none
  qualification : Option String := none
  description : Option String := none
  contract_period : Option String := none
  delivery_location : Option String := none
  deriving Repr, DecidableEq

/-- Python truthiness of `detail_data.get(key)`: `None` and `""` are falsy. -/
def truthy : Option String → Bool
  | none => false
  | some s => s ≠ ""

/-- One iteration of the `for key, value in parsed_result.items()` loop of
`parse_detail_page` (`g2b_parser.py:193-206`).  Only `contract_method` and
`bid_type` carry a `not detail_data.get(...)` guard; `estimated_price`,
`contract_period`, `delivery_location` and `qualification` are assigned
unconditionally. -/
def mergeGeminiStep (d : DetailData) (kv : String × String) : DetailData :=
  let key := pyLower kv.1
  let value := kv.2
  if pyContains "계약방법" key && !truthy d.contract_method then
    { d with contract_method := some value }
  else if pyContains "입찰방식" key && !truthy d.bid_type then
    { d with bid_type := some value }
  else if pyContains "추정가격" key || pyContains "사업금액" key ||
      pyContains "기초금액" key then
    { d with estimated_price := some value }
  else if pyContains "계약기간" key || pyContains "납품기한" key then
    { d with contract_period := some value }
  else if pyContains "납품장소" key || pyContains "이행장소" key then
    { d with delivery_location := some value }
  else if pyContains "참가자격" key || pyContains "자격요건" key then
    { d with qualification := some value }
  else d

/-- The whole merge loop of `parse_detail_page` over the parsed Gemini
response (`g2b_parser.py:193-206`). -/
def mergeGeminiFields (detail : DetailData) (parsedResult : List (String × String)) :
    DetailData :=
  parsedResult.foldl mergeGeminiStep detail

/-! ## `g2b_crawler.py`: page-state lookup and the `max_items` limit -/

/-- The attribute names a `CrawlerBase` instance actually has
(`crawler_base.py:31-44` sets `driver`, `wait`, `headless`; the class body
defines four methods).  There is no `is_on_page`, `set_page_state` or
`current_page` anywhere in the package. -/
def crawlerBaseAttrs : List String :=
  ["driver", "wait", "headless",
   "initialize", "close", "_close_popups", "_handle_detail_page_popups"]

/-- Python attribute lookup on a `CrawlerBase` instance: a name outside
`crawlerBaseAttrs` raises `AttributeError`. -/
def crawlerBaseGetAttr (name : String) : Bool :=
  name ∈ crawlerBaseAttrs

/-- `G2BCrawler.navigate_to_bid_list` (`g2b_crawler.py:147-163`).  The `try`
body first evaluates `self.base.is_on_page("bid_list")`; `trackerSaysBidList`
is what that call would answer if the method existed, `navigatorResult` is
what `self.navigator.navigate_to_bid_list()` would return.  The result pairs
the returned bool with the number of navigator invocations performed; the
`except Exception` handler returns `False`. -/
def navigate_to_bid_list (trackerSaysBidList navigatorResult : Bool) : Bool × Nat :=
  if crawlerBaseGetAttr "is_on_page" then
    if trackerSaysBidList then (true, 0)
    else if navigatorResult then
      if crawlerBaseGetAttr "set_page_state" then (navigatorResult, 1)
      else (false, 1)
    else (navigatorResult, 1)
  else (false, 0)

/-- The `for index, item in enumerate(all_items)` limit loop of
`G2BCrawler.extract_search_results` (`g2b_crawler.py:305-311`): break once
`max_items` is positive and reached; otherwise keep every item. -/
def filterLimitLoop (maxItems : Int) :
    List SearchItem → List SearchItem → List SearchItem
  | [], valid => valid
  | item :: rest, valid =>
    if 0 < maxItems && maxItems ≤ (valid.length : Int) then valid
    else filterLimitLoop maxItems rest (valid ++ [item])

/-- `G2BCrawler.extract_search_results(max_items)` restricted to its
item-selection behaviour: an empty extraction returns `[]` at once, otherwise
the limit loop decides which items are kept. -/
def extract_search_results_limit (allItems : List SearchItem) (maxItems : Int) :
    List SearchItem :=
  if allItems = [] then [] else filterLimitLoop maxItems allItems []

/-! ## `g2b_navigation.py`: the bounded popup sweep `_close_popups`

The sweep queries the live document afresh on every pass, so a browser
behaviour is modelled as a stream of per-pass documents plus flags for the
driver calls that may raise.  Each button records whether Selenium reports it
displayed/enabled and whether clicking it raises. -/

/-- A close button as the sweep sees it. -/
structure PButton where
  displayed : Bool
  enabled : Bool
  clickRaises : Bool := false
  deriving Repr, DecidableEq

/-- An `<iframe>` as the sweep sees it: whether it is displayed, whether any
driver call inside its `try` block raises (caught per-iframe), and its close
buttons grouped per CSS selector (`none` = that `find_elements` raises). -/
structure SweepIframe where
  displayed : Bool
  raises : Bool := false
  buttons : List (Option (List PButton)) := []
  deriving Repr, DecidableEq

/-- The document as one pass of the sweep queries it: the first match of the
notice-popup XPath (if any), the button lists returned per CSS selector
(`none` = that `find_elements` raises, caught per selector), and the iframe
list (`none` = the iframe `find_elements` itself raises, which escapes to the
function-level handler). -/
structure PassDoc where
  noticeFound : Option PButton := none
  selButtons : List (Option (List PButton)) := []
  iframesFind : Option (List SweepIframe) := some []
  deriving Repr, DecidableEq

/-- A complete browser behaviour over the whole invocation. -/
structure BrowserBeh where
  windowOpsRaise : Bool := false
  docs : Nat → PassDoc

/-- The per-selector button scan (`for selector in selectors` with its inner
`for button in buttons`): the first displayed-and-enabled button is clicked; a
raising click is caught by the per-selector `except` and the next selector is
tried. -/
def trySelList : List (Option (List PButton)) → Bool
  | [] => false
  | none :: rest => trySelList rest
  | some btns :: rest =>
    match btns.find? (fun b => b.displayed && b.enabled) with
    | none => trySelList rest
    | some b => if b.clickRaises then trySelList rest else true

/-- The `for iframe in iframe_elements` scan: a raising iframe is caught by
the per-iframe handler; a displayed iframe is searched with the same selector
list; the loop stops after the first successful click. -/
def tryIframes : List SweepIframe → Bool
  | [] => false
  | f :: rest =>
    if f.raises then tryIframes rest
    else if !f.displayed then tryIframes rest
    else if trySelList f.buttons then true
    else tryIframes rest

/-- Outcome of one pass of the `for attempt in range(max_attempts)` loop. -/
inductive PassResult where
  | closed
  | broke
  | raisedOut
  deriving Repr, DecidableEq

/-- One pass of the sweep (`g2b_navigation.py:198-317`): notice popup first
(its failures fall through), then the selector scan, then the iframes (whose
`find_elements` may raise out of the loop); when nothing was closed the pass
sends ESC (failures caught) and breaks. -/
def runPass (d : PassDoc) : PassResult :=
  let noticeClosed :=
    match d.noticeFound with
    | some b => b.displayed && b.enabled && !b.clickRaises
    | none => false
  if noticeClosed then .closed
  else if trySelList d.selButtons then .closed
  else
    match d.iframesFind with
    | none => .raisedOut
    | some frames => if tryIframes frames then .closed else .broke

/-- The bounded pass loop: returns (passes started, popups closed, whether an
exception escaped to the function-level handler). -/
def sweepLoop (docs : Nat → PassDoc) : Nat → Nat → Nat → Nat × Nat × Bool
  | 0, attempt, closed => (attempt, closed, false)
  | fuel + 1, attempt, closed =>
    match runPass (docs attempt) with
    | .closed => sweepLoop docs fuel (attempt + 1) (closed + 1)
    | .broke => (attempt + 1, closed, false)
    | .raisedOut => (attempt + 1, closed, true)

/-- Observable outcome of one `_close_popups` invocation. -/
structure SweepStats where
  passes : Nat
  closedCount : Nat
  deriving Repr, DecidableEq

/-- The number of passes an invocation starts (0 when the initial window
bookkeeping raises before the loop). -/
def sweepPasses (beh : BrowserBeh) : Nat :=
  if beh.windowOpsRaise then 0 else (sweepLoop beh.docs 5 0 0).1

/-- The body of `G2BNavigator._close_popups` up to its function-level `try`:
an `Except` error is an exception that reaches that handler. -/
def closePopupsBody (beh : BrowserBeh) : Except Unit SweepStats :=
  if beh.windowOpsRaise then .error ()
  else
    let r := sweepLoop beh.docs 5 0 0
    if r.2.2 then .error ()
    else .ok ⟨r.1, r.2.1⟩

/-- `G2BNavigator._close_popups` (`g2b_navigation.py:167-340`): the whole body
runs under `try: ... except Exception: logger.warning(...)`, so every
exception is swallowed and the coroutine returns normally (`none` = the
logged-and-swallowed path, where no stats are observable). -/
def close_popups (beh : BrowserBeh) : Except Unit (Option SweepStats) :=
  match closePopupsBody beh with
  | .ok s => .ok (some s)
  | .error _ => .ok none

/-! ## Concrete fixtures used to instantiate the theorems -/

/-- A results page whose only extractable content is one well-formed table
(header: bid-number and title columns; one data row). -/
def soupTableDemo : Soup :=
  { tables := [⟨[⟨[{ isTh := true, text := "공고번호" }, { isTh := true, text := "공고명" }]⟩,
                 ⟨[{ text := "20240115001" }, { text := "도로유지 보수공사" }]⟩]⟩],
    gridDivs := [] }

/-- A results page with no parseable table but with grid-view cells whose ids
follow the `gridView1_cell_<row>_<col>` scheme; its end-date cell holds a
slash-formatted date. -/
def soupCellsDemo : Soup :=
  { tables := [],
    gridDivs := [],
    extraTds :=
      [ { text := "도로유지 보수공사", idAttr := some "mf_gridView1_cell_0_6" },
        { text := "20240115001", idAttr := some "mf_gridView1_cell_0_2" },
        { text := "2020/01/01", idAttr := some "mf_gridView1_cell_0_8" } ] }

/-- A browser behaviour whose document never has anything to close. -/
def behQuiet : BrowserBeh :=
  { docs := fun _ => {} }

/-! # Theorems -/

/-! ## C4 — stopping a running job persists a full snapshot -/

/-- C4: stopping a running job always produces a persisted snapshot holding
timestamp, total item count, processed keywords and results, and its
`total_items` equals the length of the in-memory `results` at the moment of
the stop. -/
theorem c4_stop_writes_snapshot (st : CrawlingState) (now : String)
    (h : st.is_running = true) :
    ∃ snap respData, (stop_crawling st now).1 = StopResponse.success snap respData ∧
      snap.total_items = st.results.length ∧
      snap.keywords = st.processed_keywords ∧
      snap.results = st.results ∧
      snap.timestamp = now := by
  unfold stop_crawling
  rw [h]
  exact ⟨_, _, rfl, rfl, rfl, rfl, rfl⟩

/-- Witness for C4 at a concrete running state. -/
theorem c4_witness :
    ({ is_running := true, results := [] : CrawlingState }).is_running = true ∧
    ∃ snap respData,
      (stop_crawling { is_running := true, results := [] } "2026-10-12T09:00:00").1 =
        StopResponse.success snap respData ∧
      snap.total_items = List.length ([] : List SearchItem) ∧
      snap.keywords = [] ∧
      snap.results = [] ∧
      snap.timestamp = "2026-10-12T09:00:00" :=
  ⟨rfl, c4_stop_writes_snapshot { is_running := true, results := [] }
    "2026-10-12T09:00:00" rfl⟩

/-! ## C5 — starting while running is rejected synchronously, state untouched -/

/-- C5: a start request issued while a job is running is answered with an
error, queues no background task, and leaves the whole crawl state unchanged. -/
theorem c5_start_conflict (st : CrawlingState) (req : StartRequest) (now : String)
    (h : st.is_running = true) :
    start_crawling st req now = (.error "이미 크롤링이 실행 중입니다.", st, none) := by
  simp [start_crawling, h]

/-- Witness for C5 at a concrete running state. -/
theorem c5_witness :
    start_crawling { is_running := true } { keywords := ["도로"] } "t" =
      (.error "이미 크롤링이 실행 중입니다.", { is_running := true }, none) :=
  c5_start_conflict { is_running := true } { keywords := ["도로"] } "t" rfl

/-! ## C9 — a zero-result keyword is still recorded and a status is broadcast -/

/-- C9: a keyword whose search yields zero candidates is recorded in
`processed_keywords` (appended if not already present), and the status event
broadcast afterwards carries a `total_items` equal to the one before the
keyword was processed (the results are untouched). -/
theorem c9_zero_result_keyword (st : CrawlingState) (keyword : String) :
    keyword ∈ (process_keyword_no_results st keyword).1.processed_keywords ∧
    (process_keyword_no_results st keyword).2.total_items =
      st.get_status.total_items ∧
    (process_keyword_no_results st keyword).1.results = st.results ∧
    (process_keyword_no_results st keyword).1.processed_keywords =
      (if keyword ∈ st.processed_keywords then st.processed_keywords
       else st.processed_keywords ++ [keyword]) := by
  refine ⟨?_, rfl, rfl, rfl⟩
  by_cases hmem : keyword ∈ st.processed_keywords
  · simp [process_keyword_no_results, hmem]
  · simp [process_keyword_no_results, hmem]

/-! ## C10 — a non-positive `max_items` means unlimited -/

/-- With a non-positive cap the break condition of the limit loop never fires,
so every remaining item is appended. -/
theorem filterLimitLoop_nonpos (maxItems : Int) (h : maxItems ≤ 0) :
    ∀ items valid, filterLimitLoop maxItems items valid = valid ++ items := by
  intro items
  induction items with
  | nil => intro valid; simp [filterLimitLoop]
  | cons it rest ih =>
    intro valid
    have hd : decide (0 < maxItems) = false := decide_eq_false (not_lt.mpr h)
    simp [filterLimitLoop, hd, ih]

/-- C10: calling `extract_search_results` with `max_items ≤ 0` skips the
item-count limit entirely — every extracted item is kept. -/
theorem c10_nonpositive_unlimited (allItems : List SearchItem) (maxItems : Int)
    (h : maxItems ≤ 0) :
    extract_search_results_limit allItems maxItems = allItems := by
  unfold extract_search_results_limit
  by_cases he : allItems = []
  · simp [he]
  · simpa [he] using filterLimitLoop_nonpos maxItems h allItems []

/-- Witness for C10 with `max_items = 0` and three extracted items. -/
theorem c10_witness :
    (0 : Int) ≤ 0 ∧
    extract_search_results_limit
      [{ title := "가", bid_number := "1", department := "", date_start := "",
         date_end := "", status := "알수없음", extraction_time := "t" },
       { title := "나", bid_number := "2", department := "", date_start := "",
         date_end := "", status := "알수없음", extraction_time := "t" },
       { title := "다", bid_number := "3", department := "", date_start := "",
         date_end := "", status := "알수없음", extraction_time := "t" }] 0 =
      [{ title := "가", bid_number := "1", department := "", date_start := "",
         date_end := "", status := "알수없음", extraction_time := "t" },
       { title := "나", bid_number := "2", department := "", date_start := "",
         date_end := "", status := "알수없음", extraction_time := "t" },
       { title := "다", bid_number := "3", department := "", date_start := "",
         date_end := "", status := "알수없음", extraction_time := "t" }] :=
  ⟨le_refl 0, c10_nonpositive_unlimited _ 0 (le_refl 0)⟩

/-! ## C6 — the "already on bid_list" fast path can never fire -/

/-- C6 (code bug): `CrawlerBase` defines no `is_on_page` method, so the very
first statement of `navigate_to_bid_list` raises `AttributeError`, the
`except Exception` handler catches it, and the call returns `False` with zero
navigator invocations — for every tracker answer and every would-be
navigation result.  In particular it never returns `True` when the tracked
state is already `bid_list`, contradicting the claim. -/
theorem c6_navigate_to_bid_list_always_false :
    crawlerBaseGetAttr "is_on_page" = false ∧
    ∀ trackerSaysBidList navigatorResult,
      navigate_to_bid_list trackerSaysBidList navigatorResult = (false, 0) := by
  refine ⟨by decide, ?_⟩
  intro a b
  cases a <;> cases b <;> decide

/-! ## C2 — AI-derived values versus structured values -/

/-- C2 counterexample: with `estimated_price` already populated as
`"100,000"`, a parsed AI response proposing `추정가격: 200,000` overwrites it —
the merge loop guards only `contract_method` and `bid_type`, not
`estimated_price`. -/
theorem c2_counterexample :
    let d : DetailData :=
      { bid_number := "R25BK00123456", bid_title := "도로유지 보수공사",
        estimated_price := some "100,000" }
    d.estimated_price = some "100,000" ∧
    (mergeGeminiFields d [("추정가격", "200,000")]).estimated_price = some "200,000" ∧
    (some "200,000" : Option String) ≠ some "100,000" := by
  refine ⟨rfl, ?_, by decide⟩
  decide

/-- A step of the merge loop never changes an already-truthy
`contract_method`. -/
theorem mergeGeminiStep_keeps_contract_method (d : DetailData) (kv : String × String)
    (h : truthy d.contract_method = true) :
    (mergeGeminiStep d kv).contract_method = d.contract_method := by
  unfold mergeGeminiStep
  simp only [h, Bool.not_true, Bool.and_false]
  split_ifs <;> simp_all

/-- A step of the merge loop never changes an already-truthy `bid_type`. -/
theorem mergeGeminiStep_keeps_bid_type (d : DetailData) (kv : String × String)
    (h : truthy d.bid_type = true) :
    (mergeGeminiStep d kv).bid_type = d.bid_type := by
  unfold mergeGeminiStep
  simp only [h, Bool.not_true, Bool.and_false]
  split_ifs <;> simp_all

/-- C2 amended: the AI merge never overwrites an already-populated
`contract_method` or `bid_type`, but an AI-proposed `estimated_price` replaces
whatever value the field held — in the claim's scenario the final
`estimated_price` is the AI value `"200,000"`, not `"100,000"`. -/
theorem c2_amended :
    (∀ (d : DetailData) (ps : List (String × String)),
      truthy d.contract_method = true →
        (mergeGeminiFields d ps).contract_method = d.contract_method) ∧
    (∀ (d : DetailData) (ps : List (String × String)),
      truthy d.bid_type = true →
        (mergeGeminiFields d ps).bid_type = d.bid_type) ∧
    (∀ (d : DetailData) (v : String),
      (mergeGeminiFields d [("추정가격", v)]).estimated_price = some v) := by
  refine ⟨?_, ?_, ?_⟩
  · intro d ps h
    induction ps generalizing d with
    | nil => rfl
    | cons kv rest ih =>
      have hk := mergeGeminiStep_keeps_contract_method d kv h
      have ht : truthy (mergeGeminiStep d kv).contract_method = true := by rw [hk]; exact h
      calc (mergeGeminiFields d (kv :: rest)).contract_method
          = (mergeGeminiFields (mergeGeminiStep d kv) rest).contract_method := rfl
        _ = (mergeGeminiStep d kv).contract_method := ih _ ht
        _ = d.contract_method := hk
  · intro d ps h
    induction ps generalizing d with
    | nil => rfl
    | cons kv rest ih =>
      have hk := mergeGeminiStep_keeps_bid_type d kv h
      have ht : truthy (mergeGeminiStep d kv).bid_type = true := by rw [hk]; exact h
      calc (mergeGeminiFields d (kv :: rest)).bid_type
          = (mergeGeminiFields (mergeGeminiStep d kv) rest).bid_type := rfl
        _ = (mergeGeminiStep d kv).bid_type := ih _ ht
        _ = d.bid_type := hk
  · intro d v
    show (mergeGeminiStep d ("추정가격", v)).estimated_price = some v
    unfold mergeGeminiStep
    have h1 : pyContains "계약방법" (pyLower "추정가격") = false := by decide
    have h2 : pyContains "입찰방식" (pyLower "추정가격") = false := by decide
    have h3 : pyContains "추정가격" (pyLower "추정가격") = true := by decide
    simp [h1, h2, h3]

/-- Witness for C2 (amended) at a concrete populated `contract_method`. -/
theorem c2_witness :
    truthy (some "수의계약" : Option String) = true ∧
    (mergeGeminiFields
        { bid_number := "R25BK00123456", bid_title := "도로유지 보수공사",
          contract_method := some "수의계약" }
        [("계약방법", "일반경쟁")]).contract_method = some "수의계약" :=
  ⟨by decide,
   c2_amended.1
     { bid_number := "R25BK00123456", bid_title := "도로유지 보수공사",
       contract_method := some "수의계약" }
     [("계약방법", "일반경쟁")] (by decide)⟩

/-! ## C1 — deduplication key of the `results` sequence -/

/-- Unfolding lemma for the result-accumulation loop. -/
theorem appendResults_cons (results : List SearchItem) (r : SearchItem)
    (rest : List SearchItem) :
    appendResults results (r :: rest) =
      appendResults (if r ∈ results then results else results ++ [r]) rest := rfl

/-- C1 counterexample: the loop deduplicates by whole-dict equality, so two
entries that agree on `(bid_number, title)` but were matched by different
keywords are both appended to `results`. -/
theorem c1_counterexample :
    let r1 : SearchItem :=
      { title := "도로유지 보수공사", bid_number := "20240115001",
        department := "서울특별시", date_start := "", date_end := "",
        status := "알수없음", extraction_time := "t1", keyword := some "도로" }
    let r2 : SearchItem :=
      { title := "도로유지 보수공사", bid_number := "20240115001",
        department := "서울특별시", date_start := "", date_end := "",
        status := "알수없음", extraction_time := "t1", keyword := some "보수" }
    appendResults (appendResults [] [r1]) [r2] = [r1, r2] ∧
    r1.bid_number = r2.bid_number ∧ r1.title = r2.title ∧ r1 ≠ r2 := by
  refine ⟨?_, rfl, rfl, by decide⟩
  decide

/-- One step of the accumulation loop preserves the no-duplicates invariant. -/
theorem appendResults_step_nodup {acc : List SearchItem} {r : SearchItem}
    (h : acc.Nodup) : (if r ∈ acc then acc else acc ++ [r]).Nodup := by
  split
  · exact h
  · next hmem =>
    refine List.Nodup.append h (List.nodup_singleton r) ?_
    simpa [List.disjoint_singleton] using hmem

/-- C1 amended: `results` never holds two equal entries — the dedup key is
whole-item equality (`result not in results`), not the `(bid_number, title)`
pair, so a no-duplicate `results` list stays duplicate-free while distinct
items sharing `(bid_number, title)` may coexist. -/
theorem c1_amended (results newItems : List SearchItem) (h : results.Nodup) :
    (appendResults results newItems).Nodup := by
  induction newItems generalizing results with
  | nil => exact h
  | cons r rest ih =>
    rw [appendResults_cons]
    exact ih _ (appendResults_step_nodup h)

/-- Witness for C1 (amended): appending the same item twice to an empty
`results` keeps the list duplicate-free. -/
theorem c1_witness :
    (List.Nodup ([] : List SearchItem)) ∧
    (appendResults []
      [{ title := "도로유지 보수공사", bid_number := "20240115001",
         department := "서울특별시", date_start := "", date_end := "",
         status := "알수없음", extraction_time := "t1" },
       { title := "도로유지 보수공사", bid_number := "20240115001",
         department := "서울특별시", date_start := "", date_end := "",
         status := "알수없음", extraction_time := "t1" }]).Nodup :=
  ⟨List.nodup_nil, c1_amended _ _ List.nodup_nil⟩

/-! ## C3 — list extraction: fixed strategy order, first success wins -/

/-- C3: `extract_search_results_bs4` tries structural-table, then cell-id,
then generic-container extraction, and returns (keyword-annotated) exactly the
output of the first strategy that yields at least one item; once an earlier
strategy has succeeded no later strategy runs or overrides it. -/
theorem c3_first_strategy_wins (soup : Soup) (curStr now kw : String) :
    (extract_items_from_table soup curStr now ≠ [] →
      extract_search_results_bs4 soup curStr now kw =
        (extract_items_from_table soup curStr now).map (setKeyword kw)) ∧
    (extract_items_from_table soup curStr now = [] →
      extract_items_from_cells soup curStr now ≠ [] →
      extract_search_results_bs4 soup curStr now kw =
        (extract_items_from_cells soup curStr now).map (setKeyword kw)) ∧
    (extract_items_from_table soup curStr now = [] →
      extract_items_from_cells soup curStr now = [] →
      extract_search_results_bs4 soup curStr now kw =
        (extract_items_from_grid soup curStr now).map (setKeyword kw)) := by
  refine ⟨?_, ?_, ?_⟩
  · intro ht
    have h1 : (extract_items_from_table soup curStr now).isEmpty = false := by
      simpa [List.isEmpty_iff] using ht
    simp [extract_search_results_bs4, h1, List.isEmpty_iff, ht]
  · intro ht hc
    have h2 : (extract_items_from_cells soup curStr now).isEmpty = false := by
      simpa [List.isEmpty_iff] using hc
    simp [extract_search_results_bs4, ht, h2, List.isEmpty_iff, hc]
  · intro ht hc
    by_cases hg : extract_items_from_grid soup curStr now = [] <;>
      simp [extract_search_results_bs4, ht, hc, hg, List.isEmpty_iff]

/-- Witness for C3: on a page where the table strategy succeeds, the chain
returns exactly the table strategy's output with the keyword attached. -/
theorem c3_witness :
    extract_items_from_table soupTableDemo "2026-10-12" "t0" ≠ [] ∧
    extract_search_results_bs4 soupTableDemo "2026-10-12" "t0" "도로" =
      (extract_items_from_table soupTableDemo "2026-10-12" "t0").map
        (setKeyword "도로") :=
  ⟨by decide, (c3_first_strategy_wins soupTableDemo "2026-10-12" "t0" "도로").1 (by decide)⟩

/-! ## C7 — the popup sweep is bounded, terminates early, and never raises -/

/-- The pass loop starts at most `fuel` further passes. -/
theorem sweepLoop_passes_le (docs : Nat → PassDoc) :
    ∀ fuel attempt closed, (sweepLoop docs fuel attempt closed).1 ≤ attempt + fuel := by
  intro fuel
  induction fuel with
  | zero =>
    intro attempt closed
    show attempt ≤ attempt + 0
    omega
  | succ f ih =>
    intro attempt closed
    unfold sweepLoop
    cases runPass (docs attempt) with
    | closed =>
      have h := ih (attempt + 1) (closed + 1)
      show (sweepLoop docs f (attempt + 1) (closed + 1)).1 ≤ attempt + (f + 1)
      omega
    | broke =>
      show attempt + 1 ≤ attempt + (f + 1)
      omega
    | raisedOut =>
      show attempt + 1 ≤ attempt + (f + 1)
      omega

/-- If pass `n` closes nothing, the loop never starts pass `n + 1`. -/
theorem sweepLoop_early (docs : Nat → PassDoc) (n : Nat)
    (hn : runPass (docs n) ≠ PassResult.closed) :
    ∀ fuel attempt closed, attempt ≤ n →
      (sweepLoop docs fuel attempt closed).1 ≤ n + 1 := by
  intro fuel
  induction fuel with
  | zero =>
    intro attempt closed ha
    show attempt ≤ n + 1
    omega
  | succ f ih =>
    intro attempt closed ha
    unfold sweepLoop
    cases h : runPass (docs attempt) with
    | closed =>
      have hne : attempt ≠ n := fun he => hn (he ▸ h)
      show (sweepLoop docs f (attempt + 1) (closed + 1)).1 ≤ n + 1
      exact ih (attempt + 1) (closed + 1) (by omega)
    | broke =>
      show attempt + 1 ≤ n + 1
      omega
    | raisedOut =>
      show attempt + 1 ≤ n + 1
      omega

/-- C7: every invocation of the popup sweep (i) returns normally for every
browser behaviour — any exception reaching the function-level handler is
swallowed; (ii) starts at most 5 passes over the document; and (iii) stops
right after any pass in which nothing was closed. -/
theorem c7_popup_sweep :
    (∀ beh : BrowserBeh, ∃ s, close_popups beh = Except.ok s) ∧
    (∀ beh : BrowserBeh, sweepPasses beh ≤ 5) ∧
    (∀ (beh : BrowserBeh) (n : Nat),
      runPass (beh.docs n) ≠ PassResult.closed → sweepPasses beh ≤ n + 1) := by
  refine ⟨?_, ?_, ?_⟩
  · intro beh
    cases h : closePopupsBody beh with
    | ok s => exact ⟨some s, by simp [close_popups, h]⟩
    | error e => exact ⟨none, by simp [close_popups, h]⟩
  · intro beh
    unfold sweepPasses
    split
    · omega
    · simpa using sweepLoop_passes_le beh.docs 5 0 0
  · intro beh n hn
    unfold sweepPasses
    split
    · omega
    · exact sweepLoop_early beh.docs n hn 5 0 0 (Nat.zero_le n)

/-- Witness for C7: a behaviour with nothing to close stops after a single
pass. -/
theorem c7_witness :
    runPass (behQuiet.docs 0) ≠ PassResult.closed ∧ sweepPasses behQuiet ≤ 0 + 1 :=
  ⟨by decide, c7_popup_sweep.2.2 behQuiet 0 (by decide)⟩

/-! ## C8 — status classification of extracted rows -/

/-- `strptime` fails on the empty string under every format. -/
theorem strptimeYMD_empty (fmt : DateFmt) : strptimeYMD fmt "" = none := rfl

/-- No format parses the empty string. -/
theorem firstParse_empty : ∀ formats, firstParse formats "" = none
  | [] => rfl
  | f :: rest => by
    rw [firstParse, strptimeYMD_empty]
    exact firstParse_empty rest

/-- Any item the table strategy emits carries the four-format status of its
own `date_end`. -/
theorem processTableRow_status (cols : ColIdx) (titleIdx : Nat) (curStr now : String)
    (rowIdx : Nat) (row : TRow) (item : SearchItem)
    (h : processTableRow cols titleIdx curStr now rowIdx row = some item) :
    item.status = statusFromFormats tableDateFormats item.date_end curStr := by
  simp only [processTableRow] at h
  split at h
  · exact absurd h (by simp)
  · split at h
    · exact absurd h (by simp)
    · split at h
      · injection h with h
        subst h
        rfl
      · exact absurd h (by simp)

/-- Membership in the output of the table row loop comes either from the
accumulator or from a processed row. -/
theorem tableRowsLoop_mem (cols : ColIdx) (titleIdx : Nat) (curStr now : String)
    (l : List (Nat × TRow)) (items : List SearchItem) (count : Nat) (x : SearchItem)
    (hx : x ∈ (tableRowsLoop cols titleIdx curStr now l items count).1) :
    x ∈ items ∨ ∃ i row, processTableRow cols titleIdx curStr now i row = some x := by
  induction l generalizing items count with
  | nil => exact Or.inl hx
  | cons ir rest ih =>
    unfold tableRowsLoop at hx
    split at hx
    · exact Or.inl hx
    · split at hx
      · next item0 hp =>
        rcases ih _ _ hx with hmem | hnew
        · rcases List.mem_append.mp hmem with h1 | h2
          · exact Or.inl h1
          · refine Or.inr ⟨ir.1, ir.2, ?_⟩
            rw [List.mem_singleton.mp h2]
            exact hp
        · exact Or.inr hnew
      · exact ih _ _ hx

/-- Membership in the output of the table loop comes either from the
accumulator or from some processed row of some table. -/
theorem tablesLoop_mem (curStr now : String) (ts : List HTable)
    (items : List SearchItem) (count : Nat) (x : SearchItem)
    (hx : x ∈ (tablesLoop curStr now ts items count).1) :
    x ∈ items ∨ ∃ cols titleIdx i row,
      processTableRow cols titleIdx curStr now i row = some x := by
  induction ts generalizing items count with
  | nil => exact Or.inl hx
  | cons t rest ih =>
    unfold tablesLoop at hx
    split at hx
    · exact ih _ _ hx
    · split at hx
      · exact ih _ _ hx
      · rcases ih _ _ hx with hmem | hnew
        · rcases tableRowsLoop_mem _ _ _ _ _ _ _ _ hmem with h1 | ⟨i, row, hp⟩
          · exact Or.inl h1
          · exact Or.inr ⟨_, _, i, row, hp⟩
        · exact Or.inr hnew

/-- Any item the cell-id strategy emits carries the single-format status of
its own `date_end`. -/
theorem processCellItem_status (soup : Soup) (curStr now : String) (cell : Cell)
    (item : SearchItem) (h : processCellItem soup curStr now cell = some item) :
    item.status = statusSingleFormat item.date_end curStr := by
  simp only [processCellItem] at h
  split at h
  · exact absurd h (by simp)
  · split at h
    · exact absurd h (by simp)
    · split at h
      · exact absurd h (by simp)
      · split at h
        · injection h with h
          subst h
          rfl
        · exact absurd h (by simp)

/-- Membership in the output of the cell loop. -/
theorem cellsLoop_mem (soup : Soup) (curStr now : String) (l : List Cell)
    (items : List SearchItem) (count : Nat) (x : SearchItem)
    (hx : x ∈ (cellsLoop soup curStr now l items count).1) :
    x ∈ items ∨ ∃ cell, processCellItem soup curStr now cell = some x := by
  induction l generalizing items count with
  | nil => exact Or.inl hx
  | cons cell rest ih =>
    unfold cellsLoop at hx
    split at hx
    · exact Or.inl hx
    · split at hx
      · next item0 hp =>
        rcases ih _ _ hx with hmem | hnew
        · rcases List.mem_append.mp hmem with h1 | h2
          · exact Or.inl h1
          · refine Or.inr ⟨cell, ?_⟩
            rw [List.mem_singleton.mp h2]
            exact hp
        · exact Or.inr hnew
      · exact ih _ _ hx

/-- Any item the grid strategy emits carries the single-format status of its
own `date_end`. -/
theorem processGridLink_status (curStr now : String) (gl : GridLink)
    (item : SearchItem) (h : processGridLink curStr now gl = some item) :
    item.status = statusSingleFormat item.date_end curStr := by
  simp only [processGridLink] at h
  split at h
  · exact absurd h (by simp)
  · split at h
    · exact absurd h (by simp)
    · split at h
      · injection h with h
        subst h
        rfl
      · exact absurd h (by simp)

/-- Membership in the output of one grid div's link loop. -/
theorem gridLinksLoop_mem (curStr now : String) (l : List GridLink)
    (items : List SearchItem) (count : Nat) (x : SearchItem)
    (hx : x ∈ (gridLinksLoop curStr now l items count).1) :
    x ∈ items ∨ ∃ gl, processGridLink curStr now gl = some x := by
  induction l generalizing items count with
  | nil => exact Or.inl hx
  | cons gl rest ih =>
    unfold gridLinksLoop at hx
    split at hx
    · exact Or.inl hx
    · split at hx
      · next item0 hp =>
        rcases ih _ _ hx with hmem | hnew
        · rcases List.mem_append.mp hmem with h1 | h2
          · exact Or.inl h1
          · refine Or.inr ⟨gl, ?_⟩
            rw [List.mem_singleton.mp h2]
            exact hp
        · exact Or.inr hnew
      · exact ih _ _ hx

/-- Membership in the output of the grid div loop. -/
theorem gridDivsLoop_mem (curStr now : String) (gs : List GridDiv)
    (items : List SearchItem) (count : Nat) (x : SearchItem)
    (hx : x ∈ (gridDivsLoop curStr now gs items count).1) :
    x ∈ items ∨ ∃ gl, processGridLink curStr now gl = some x := by
  induction gs generalizing items count with
  | nil => exact Or.inl hx
  | cons g rest ih =>
    unfold gridDivsLoop at hx
    rcases ih _ _ hx with hmem | hnew
    · exact gridLinksLoop_mem _ _ _ _ _ _ hmem
    · exact Or.inr hnew

/-- C8 amended: each extraction site classifies an item's status against its
own format list — the structural-table strategy knows the four formats
(dash, slash, dot, Korean) while the cell-id and generic-container strategies
only try `"%Y-%m-%d"`.  Relative to the site's own format list the rule is as
claimed: parseable end date strictly before the current date ⇒ `마감` (Closed),
parseable but not before ⇒ `공고중` (Open), absent or unparseable ⇒ `알수없음`
(Unknown). -/
theorem c8_amended :
    (∀ soup curStr now item, item ∈ extract_items_from_table soup curStr now →
      item.status = statusFromFormats tableDateFormats item.date_end curStr) ∧
    (∀ soup curStr now item, item ∈ extract_items_from_cells soup curStr now →
      item.status = statusSingleFormat item.date_end curStr) ∧
    (∀ soup curStr now item, item ∈ extract_items_from_grid soup curStr now →
      item.status = statusSingleFormat item.date_end curStr) ∧
    (∀ formats dateEnd curStr cur endD,
      strptimeYMD fmtDash curStr = some cur →
      firstParse formats dateEnd = some endD →
      statusFromFormats formats dateEnd curStr =
        (if PDate.lt endD cur = true then "마감" else "공고중")) ∧
    (∀ formats dateEnd curStr, firstParse formats dateEnd = none →
      statusFromFormats formats dateEnd curStr = "알수없음") ∧
    (∀ dateEnd curStr cur endD,
      strptimeYMD fmtDash curStr = some cur →
      strptimeYMD fmtDash dateEnd = some endD →
      statusSingleFormat dateEnd curStr =
        (if PDate.lt endD cur = true then "마감" else "공고중")) ∧
    (∀ dateEnd curStr, strptimeYMD fmtDash dateEnd = none →
      statusSingleFormat dateEnd curStr = "알수없음") := by
  refine ⟨?_, ?_, ?_, ?_, ?_, ?_, ?_⟩
  · intro soup curStr now item h
    rcases tablesLoop_mem curStr now soup.tables [] 0 item h with hmem | ⟨c, t, i, r, hp⟩
    · exact absurd hmem (List.not_mem_nil item)
    · exact processTableRow_status _ _ _ _ _ _ _ hp
  · intro soup curStr now item h
    rcases cellsLoop_mem soup curStr now _ [] 0 item h with hmem | ⟨cell, hp⟩
    · exact absurd hmem (List.not_mem_nil item)
    · exact processCellItem_status _ _ _ _ _ hp
  · intro soup curStr now item h
    rcases gridDivsLoop_mem curStr now _ [] 0 item h with hmem | ⟨gl, hp⟩
    · exact absurd hmem (List.not_mem_nil item)
    · exact processGridLink_status _ _ _ _ hp
  · intro formats dateEnd curStr cur endD hcur hparse
    have hne : dateEnd ≠ "" := by
      intro he
      rw [he, firstParse_empty] at hparse
      exact Option.noConfusion hparse
    simp [statusFromFormats, hne, hcur, hparse]
  · intro formats dateEnd curStr hparse
    by_cases he : dateEnd = ""
    · simp [statusFromFormats, he]
    · cases hc : strptimeYMD fmtDash curStr <;>
        simp [statusFromFormats, he, hc, hparse]
  · intro dateEnd curStr cur endD hcur hparse
    have hne : dateEnd ≠ "" := by
      intro he
      rw [he, strptimeYMD_empty] at hparse
      exact Option.noConfusion hparse
    simp [statusSingleFormat, hne, hcur, hparse]
  · intro dateEnd curStr hparse
    by_cases he : dateEnd = ""
    · simp [statusSingleFormat, he]
    · cases hc : strptimeYMD fmtDash curStr <;>
        simp [statusSingleFormat, he, hc, hparse]

/-- C8 counterexample: a row extracted by the cell-id strategy whose end date
`"2020/01/01"` parses in one of the program's known formats (`"%Y/%m/%d"`)
and lies strictly before the current date `2026-10-12`, yet its status is
`알수없음` (Unknown) rather than `마감` (Closed): the cell-id site only tries
`"%Y-%m-%d"`. -/
theorem c8_counterexample :
    (extract_items_from_cells soupCellsDemo "2026-10-12" "t0").map SearchItem.date_end =
      ["2020/01/01"] ∧
    (extract_items_from_cells soupCellsDemo "2026-10-12" "t0").map SearchItem.status =
      ["알수없음"] ∧
    firstParse tableDateFormats "2020/01/01" = some ⟨2020, 1, 1⟩ ∧
    strptimeYMD fmtDash "2026-10-12" = some ⟨2026, 10, 12⟩ ∧
    PDate.lt ⟨2020, 1, 1⟩ ⟨2026, 10, 12⟩ = true ∧
    ("알수없음" : String) ≠ "마감" ∧
    extract_search_results_bs4 soupCellsDemo "2026-10-12" "t0" "도로" =
      (extract_items_from_cells soupCellsDemo "2026-10-12" "t0").map
        (setKeyword "도로") := by
  exact ⟨by decide, by decide, by decide, by decide, by decide, by decide, by decide⟩

/-- Witness for C8 (amended) at a concrete table extraction. -/
theorem c8_witness :
    ({ title := "도로유지 보수공사", bid_number := "20240115001", department := "",
       date_start := "", date_end := "", status := "알수없음",
       row_index := some "1", extraction_time := "t0" } : SearchItem) ∈
      extract_items_from_table soupTableDemo "2026-10-12" "t0" ∧
    ({ title := "도로유지 보수공사", bid_number := "20240115001", department := "",
       date_start := "", date_end := "", status := "알수없음",
       row_index := some "1", extraction_time := "t0" } : SearchItem).status =
      statusFromFormats tableDateFormats
        ({ title := "도로유지 보수공사", bid_number := "20240115001", department := "",
           date_start := "", date_end := "", status := "알수없음",
           row_index := some "1", extraction_time := "t0" } : SearchItem).date_end
        "2026-10-12" :=
  ⟨by decide, c8_amended.1 soupTableDemo "2026-10-12" "t0" _ (by decide)⟩
